import Mathlib

/-!
Formal model of the Angel bootstrap supervisor, `admin/angel/AngelInit.c`.

The file is a shallow embedding of `AngelInit_main` and its helper
functions (`getClientPipe`, `initCore`, `setUser`, `coreDied`,
`clientDisconnected`).  External collaborators (the benc codec, the
random generator, the OS spawn call, `Security_setUser`, the event loop
and the peers' replies) are parameters of an `Env` record: a run of the
program is the pure function `AngelInit_main` applied to such an
environment, returning the ordered list of observable effects together
with an outcome (normal return code or fatal `Except_throw`).
-/

/-! ## C library fragments used by the program -/

/-- `STDIN_FILENO` from unistd.h. -/
def STDIN_FILENO : Int := 0

/-- `STDOUT_FILENO` from unistd.h. -/
def STDOUT_FILENO : Int := 1

/-- Digit-accumulating loop of C `atoi`. -/
def atoiDigits : List Char → Nat → Nat
  | [], acc => acc
  | c :: cs, acc =>
      if c.isDigit then atoiDigits cs (acc * 10 + (c.toNat - 48)) else acc

/-- C `atoi`: skip leading whitespace, optional sign, then a digit run;
a string with no leading digits yields 0. -/
def atoi (s : String) : Int :=
  let cs := s.toList.dropWhile (fun c => c = ' ' ∨ c = '\t' ∨ c = '\n' ∨ c = '\r')
  match cs with
  | '-' :: rest => - (atoiDigits rest 0 : Int)
  | '+' :: rest => (atoiDigits rest 0 : Int)
  | _ => (atoiDigits cs 0 : Int)

/-! ## Benc configuration values

Modelled from the spec: the Config is a tree of string-keyed
dictionaries, strings and opaque byte strings (benc/Dict.h and
benc/String.h are not part of this fragment).  `Dict_getString` /
`Dict_getDict` return the value at a key when it has the requested
type, and null (`none`) otherwise; a null dictionary has no entries. -/

inductive Benc where
  | str (s : String)
  | int (i : Int)
  | list (l : List Benc)
  | dict (d : List (String × Benc))

/-- A benc dictionary: ordered key/value list. -/
abbrev BDict := List (String × Benc)

/-- Modelled from the spec: `Dict_getDict` returns the dictionary at
`key` when the entry exists and is a dictionary, else null. -/
def Dict_getDict (d : BDict) (key : String) : Option BDict :=
  match List.lookup key d with
  | some (Benc.dict x) => some x
  | _ => none

/-- Modelled from the spec: `Dict_getString` returns the string at
`key` when the entry exists and is a string, else null; a null
dictionary yields null. -/
def Dict_getString (d : Option BDict) (key : String) : Option String :=
  match d with
  | none => none
  | some dd =>
      match List.lookup key dd with
      | some (Benc.str s) => some s
      | _ => none

/-- The five admin-dictionary fields `AngelInit_main` extracts
(AngelInit.c lines 160-165). -/
structure AdminFields where
  core : Option String
  bind : Option String
  pass : Option String
  user : Option String
  corePipeName : Option String
deriving DecidableEq

/-- Field extraction of AngelInit.c lines 160-165: look up the `admin`
dictionary, then read each field as a string. -/
def readAdmin (config : BDict) : AdminFields :=
  let admin := Dict_getDict config "admin"
  { core := Dict_getString admin "core"
    bind := Dict_getString admin "bind"
    pass := Dict_getString admin "pass"
    user := Dict_getString admin "user"
    corePipeName := Dict_getString admin "corePipeName" }

/-! ## Privilege dropping -/

/-- Result of the external `Security_setUser` call (util/Security.h is
outside this fragment): `success` is the C return value 0, `permission`
is `Security_setUser_PERMISSION`, and `other` is any remaining value. -/
inductive SetUserResult where
  | success
  | permission
  | other (code : Int)
deriving DecidableEq

/-- `setUser` (AngelInit.c lines 61-70): given the result of
`Security_setUser`, return on `Security_setUser_PERMISSION` or 0 and
throw on every other value. -/
def setUser (res : SetUserResult) : Except String Unit :=
  match res with
  | SetUserResult.permission => Except.ok ()
  | SetUserResult.success => Except.ok ()
  | SetUserResult.other _ => Except.error "Security_setUser returned unknown result"

/-! ## Client pipe resolution -/

/-- How the client transport endpoint is opened: on a pair of already
open descriptors (`Pipe_forFiles`) or on a named pipe (`Pipe_named`). -/
inductive ClientPipeSpec where
  | forFiles (inFd outFd : Int)
  | named (name : String)
deriving DecidableEq

/-- `getClientPipe` (AngelInit.c lines 72-92).  `argv` is the full
argument vector, so C `argc` is `argv.length`; the C short-circuit
reads `argv[2]`/`argv[3]` only when `argc ≥ 4`, hence total `getD`
access is faithful. -/
def getClientPipe (argv : List String) : ClientPipeSpec :=
  let argc := argv.length
  let inFromClientNo : Int :=
    if argc < 4 ∨ atoi (argv.getD 2 "") = 0 then STDIN_FILENO else atoi (argv.getD 2 "")
  let outToClientNo : Int :=
    if argc < 4 ∨ atoi (argv.getD 3 "") = 0 then STDOUT_FILENO else atoi (argv.getD 3 "")
  if argc > 2 ∧ inFromClientNo = STDIN_FILENO then
    ClientPipeSpec.named (argv.getD 2 "")
  else
    ClientPipeSpec.forFiles inFromClientNo outToClientNo

/-! ## Pipe close callbacks -/

/-- Observable behaviour of a pipe `onClose` callback: whether it
terminates the process, what it prints, and which messages it sends to
the client. -/
structure HandlerResult where
  exitCode : Option Nat
  printed : List String
  clientSends : List (List Nat)
deriving DecidableEq

/-- `coreDied` (AngelInit.c lines 94-97), installed as the core pipe's
`onClose`: `exit(1)`, nothing else.  The callback is polymorphic in an
abstract handshake-state type `σ` because the C function reaches no
orchestrator state at all. -/
def coreDied (σ : Type) (s : σ) (status : Int) : σ × HandlerResult :=
  (s, { exitCode := some 1, printed := [], clientSends := [] })

/-- `clientDisconnected` (AngelInit.c lines 99-102), installed as the
client pipe's `onClose` before the handshake starts: one `fprintf` to
stdout, no exit, no state access. -/
def clientDisconnected (σ : Type) (s : σ) (status : Int) : σ × HandlerResult :=
  (s, { exitCode := none
        printed := ["Cjdns has started up in the background"]
        clientSends := [] })

/-! ## Framing layer -/

/-- Result of offering one inbound frame to the framing layer. -/
inductive FrameResult where
  | msg (payload : List Nat)
  | protocolError
  | needMoreData
deriving DecidableEq

/-- Modelled from the spec: the FramingLayer implementation
(interface/FramingIface.c) is not part of this fragment; only its
constructor call `FramingIface_new(65535, ...)` appears in AngelInit.c
line 180.  Per the spec, inbound bytes are buffered until one complete
length-prefixed frame is available and a declared length over the
maximum message size bound fails with a protocol error. -/
def framingReceive (maxMessageSize : Nat) (declaredLen : Nat) (buffered : List Nat) :
    FrameResult :=
  if maxMessageSize < declaredLen then FrameResult.protocolError
  else if declaredLen ≤ buffered.length then FrameResult.msg (buffered.take declaredLen)
  else FrameResult.needMoreData

/-! ## The orchestrator -/

/-- External collaborators of one run of `AngelInit_main`. -/
structure Env where
  /-- The process argument vector (`argc` is its length). -/
  argv : List String
  /-- The first message read from the client pipe by
  `InterfaceWaiter_waitForData`. -/
  clientMsg : List Nat
  /-- `BencMessageReader_read`: decode bytes to a config dictionary or
  throw. -/
  bencRead : List Nat → Except String BDict
  /-- `BencMessageWriter_write`: the paired encoder of the same codec. -/
  bencWrite : BDict → List Nat
  /-- The 31-character name produced by `Random_base32`. -/
  randName : String
  /-- Whether `fopen(coreBinaryPath, "r")` succeeds. -/
  fopenOk : String → Bool
  /-- Return value of `Process_spawn` (nonzero is failure). -/
  spawnResult : String → Int
  /-- The core's response message read by `InterfaceWaiter_waitForData`. -/
  coreReply : List Nat
  /-- Result of `Security_setUser` for a given user name. -/
  setUserResult : String → SetUserResult

/-- One observable effect of a run, in program order. -/
inductive Effect where
  | openClientPipe (spec : ClientPipeSpec)
  | openCorePipe (name : String)
  | createFraming (maxMessageSize : Nat)
  | spawn (path : String) (args : List String)
  | sendToCore (bytes : List Nat)
  | sendToClient (bytes : List Nat)
  | dropPrivileges (user : String)
  | handoff
deriving DecidableEq

/-- Final outcome of a run: `AngelInit_main` returning a code, or a
fatal `Except_throw` with its diagnostic. -/
inductive Outcome where
  | exited (code : Nat)
  | fatal (msg : String)
deriving DecidableEq

/-- AngelInit.c lines 187-212: send the re-encoded config to the core,
wait for the core's reply, forward it to the client, optionally drop
privileges, then free the temporary allocator and hand off to
`Angel_start`, returning 0. -/
def angelHandshake (env : Env) (config : BDict) (f : AdminFields) (fx : List Effect) :
    List Effect × Outcome :=
  let fx := fx ++ [Effect.sendToCore (env.bencWrite config),
                   Effect.sendToClient env.coreReply]
  match f.user with
  | none => (fx ++ [Effect.handoff], Outcome.exited 0)
  | some u =>
      match setUser (env.setUserResult u) with
      | Except.ok _ => (fx ++ [Effect.dropPrivileges u, Effect.handoff], Outcome.exited 0)
      | Except.error e => (fx ++ [Effect.dropPrivileges u], Outcome.fatal e)

/-- The validation condition of AngelInit.c line 167:
`!bind || !pass || (!core && !corePipeName)`. -/
def missingParams (f : AdminFields) : Bool :=
  f.bind.isNone || f.pass.isNone || (f.core.isNone && f.corePipeName.isNone)

/-- AngelInit.c lines 160-212, after the config is decoded: validate
the admin fields, choose the core pipe name (supplied `corePipeName` or
the fresh `Random_base32` name), open the named core pipe, wrap it in a
`FramingIface` with maximum message size 65535, spawn the core binary
via `initCore` when `core` is a string (lines 41-59: `fopen` check,
then `Process_spawn(core, ["core", corePipeName])`), and run the
handshake. -/
def angelPostDecode (env : Env) (config : BDict) : List Effect × Outcome :=
  let f := readAdmin config
  if missingParams f then
    ([], Outcome.fatal "missing configuration params in preconfig")
  else
    let name := f.corePipeName.getD env.randName
    let provision := [Effect.openCorePipe name, Effect.createFraming 65535]
    match f.core with
    | some path =>
        if env.fopenOk path then
          if env.spawnResult path = 0 then
            angelHandshake env config f (provision ++ [Effect.spawn path ["core", name]])
          else
            (provision ++ [Effect.spawn path ["core", name]],
             Outcome.fatal "Failed to spawn core process")
        else
          (provision, Outcome.fatal "Cant open core executable for reading")
    | none => angelHandshake env config f provision

/-- `AngelInit_main` (AngelInit.c lines 136-213): open the client pipe,
wait for the client's first message, decode it, then proceed as
`angelPostDecode`. -/
def AngelInit_main (env : Env) : List Effect × Outcome :=
  let clientSpec := getClientPipe env.argv
  match env.bencRead env.clientMsg with
  | Except.error e => ([Effect.openClientPipe clientSpec], Outcome.fatal e)
  | Except.ok config =>
      let r := angelPostDecode env config
      (Effect.openClientPipe clientSpec :: r.1, r.2)

/-- Recognizer for `sendToCore` effects. -/
def isSendToCore : Effect → Bool
  | Effect.sendToCore _ => true
  | _ => false

/-- Recognizer for `openCorePipe` effects. -/
def isOpenCorePipe : Effect → Bool
  | Effect.openCorePipe _ => true
  | _ => false

/-! ## Client-channel resolution, per the documented interface

Two rephrasings of `getClientPipe` used to compare the code against the
documented argument handling. -/

/-- The client-channel resolution exactly as the external-interface
description words it: a supplied input/output descriptor pair is used
as-is; with the pair absent, a present next argument is a named-pipe
identifier; with neither, standard input and output are used. -/
def claimClientResolution (argv : List String) : ClientPipeSpec :=
  let argc := argv.length
  if ¬ argc < 4 ∧ atoi (argv.getD 2 "") ≠ 0 ∧ atoi (argv.getD 3 "") ≠ 0 then
    ClientPipeSpec.forFiles (atoi (argv.getD 2 "")) (atoi (argv.getD 3 ""))
  else if 2 < argc then
    ClientPipeSpec.named (argv.getD 2 "")
  else
    ClientPipeSpec.forFiles STDIN_FILENO STDOUT_FILENO

/-- The resolution order the code actually implements: a next argument
parsing to a nonzero integer is the input descriptor (the output
descriptor falls back to standard output when its argument is absent or
parses to zero); otherwise a present next argument is a named-pipe
identifier; otherwise standard input and output. -/
def amendedClientResolution (argv : List String) : ClientPipeSpec :=
  let argc := argv.length
  if ¬ argc < 4 ∧ atoi (argv.getD 2 "") ≠ 0 then
    ClientPipeSpec.forFiles (atoi (argv.getD 2 ""))
      (if atoi (argv.getD 3 "") = 0 then STDOUT_FILENO else atoi (argv.getD 3 ""))
  else if 2 < argc then
    ClientPipeSpec.named (argv.getD 2 "")
  else
    ClientPipeSpec.forFiles STDIN_FILENO STDOUT_FILENO

/-! ## Concrete runs -/

/-- An environment delivering the config `cfg` from the client, with
byte-level collaborators fixed to small concrete values. -/
def envWith (cfg : BDict) : Env :=
  { argv := ["cjdns", "angel"]
    clientMsg := []
    bencRead := fun _ => Except.ok cfg
    bencWrite := fun _ => [1, 2, 3]
    randName := "randomname"
    fopenOk := fun _ => true
    spawnResult := fun _ => 0
    coreReply := [7, 8, 9]
    setUserResult := fun _ => SetUserResult.success }

/-- Scenario B config: `core` is the pre-existing-descriptor dictionary
`{fromCore: 12, toCore: 14}`, with bind and pass present. -/
def cfgDictCore : BDict :=
  [("admin", Benc.dict
    [("core", Benc.dict [("fromCore", Benc.int 12), ("toCore", Benc.int 14)]),
     ("bind", Benc.str "127.0.0.1:11234"),
     ("pass", Benc.str "secret")])]

/-- A config with bind, pass and a `corePipeName` but no `core` field
in either form. -/
def cfgPipeOnly : BDict :=
  [("admin", Benc.dict
    [("bind", Benc.str "127.0.0.1:11234"),
     ("pass", Benc.str "secret"),
     ("corePipeName", Benc.str "pn")])]

/-- Scenario A config: a core binary path with bind and pass. -/
def cfgSpawn : BDict :=
  [("admin", Benc.dict
    [("core", Benc.str "/bin/true"),
     ("bind", Benc.str "127.0.0.1:11234"),
     ("pass", Benc.str "secret")])]

/-- Scenario A config extended with a target user. -/
def cfgUser : BDict :=
  [("admin", Benc.dict
    [("core", Benc.str "/bin/true"),
     ("bind", Benc.str "127.0.0.1:11234"),
     ("pass", Benc.str "secret"),
     ("user", Benc.str "nobody")])]

/-- A config missing the pass field. -/
def cfgNoPass : BDict :=
  [("admin", Benc.dict
    [("core", Benc.str "/bin/true"),
     ("bind", Benc.str "127.0.0.1:11234")])]

/-- The effect trace of the run on `envWith cfgSpawn`. -/
def spawnTrace : List Effect :=
  [Effect.openClientPipe (ClientPipeSpec.forFiles 0 1),
   Effect.openCorePipe "randomname",
   Effect.createFraming 65535,
   Effect.spawn "/bin/true" ["core", "randomname"],
   Effect.sendToCore [1, 2, 3],
   Effect.sendToClient [7, 8, 9],
   Effect.handoff]

/-- The effect trace of the run on `envWith cfgUser`. -/
def userTrace : List Effect :=
  [Effect.openClientPipe (ClientPipeSpec.forFiles 0 1),
   Effect.openCorePipe "randomname",
   Effect.createFraming 65535,
   Effect.spawn "/bin/true" ["core", "randomname"],
   Effect.sendToCore [1, 2, 3],
   Effect.sendToClient [7, 8, 9],
   Effect.dropPrivileges "nobody",
   Effect.handoff]

/-! ## Trace structure lemmas -/

theorem angelHandshake_fst (env : Env) (config : BDict) (f : AdminFields)
    (fx0 : List Effect) :
    ∃ rest, (angelHandshake env config f fx0).1
        = fx0 ++ ([Effect.sendToCore (env.bencWrite config),
                   Effect.sendToClient env.coreReply] ++ rest) ∧
      ∀ x ∈ rest, x = Effect.handoff ∨
        ∃ u, x = Effect.dropPrivileges u ∧ f.user = some u := by
  rcases hu : f.user with _ | u
  · refine ⟨[Effect.handoff], by simp [angelHandshake, hu], ?_⟩
    intro x hx
    simp only [List.mem_cons, List.not_mem_nil, or_false] at hx
    exact Or.inl hx
  · rcases hr : env.setUserResult u with _ | _ | c
    · refine ⟨[Effect.dropPrivileges u, Effect.handoff],
        by simp [angelHandshake, hu, hr, setUser], ?_⟩
      intro x hx
      simp only [List.mem_cons, List.not_mem_nil, or_false] at hx
      rcases hx with hx | hx
      · exact Or.inr ⟨u, hx, rfl⟩
      · exact Or.inl hx
    · refine ⟨[Effect.dropPrivileges u, Effect.handoff],
        by simp [angelHandshake, hu, hr, setUser], ?_⟩
      intro x hx
      simp only [List.mem_cons, List.not_mem_nil, or_false] at hx
      rcases hx with hx | hx
      · exact Or.inr ⟨u, hx, rfl⟩
      · exact Or.inl hx
    · refine ⟨[Effect.dropPrivileges u],
        by simp [angelHandshake, hu, hr, setUser], ?_⟩
      intro x hx
      simp only [List.mem_cons, List.not_mem_nil, or_false] at hx
      exact Or.inr ⟨u, hx, rfl⟩

theorem mem_angelHandshake (env : Env) (config : BDict) (f : AdminFields)
    (fx0 : List Effect) (e : Effect)
    (he : e ∈ (angelHandshake env config f fx0).1) :
    e ∈ fx0 ∨ e = Effect.sendToCore (env.bencWrite config) ∨
      e = Effect.sendToClient env.coreReply ∨ e = Effect.handoff ∨
      ∃ u, e = Effect.dropPrivileges u ∧ f.user = some u := by
  obtain ⟨rest, hEq, hrest⟩ := angelHandshake_fst env config f fx0
  rw [hEq] at he
  rcases List.mem_append.mp he with h | h
  · exact Or.inl h
  · rcases List.mem_append.mp h with h2 | h2
    · simp only [List.mem_cons, List.not_mem_nil, or_false] at h2
      rcases h2 with h2 | h2
      · exact Or.inr (Or.inl h2)
      · exact Or.inr (Or.inr (Or.inl h2))
    · rcases hrest e h2 with h3 | ⟨u, h3, hu⟩
      · exact Or.inr (Or.inr (Or.inr (Or.inl h3)))
      · exact Or.inr (Or.inr (Or.inr (Or.inr ⟨u, h3, hu⟩)))

theorem exit_angelHandshake (env : Env) (config : BDict) (f : AdminFields)
    (fx0 : List Effect) (c : Nat)
    (h : (angelHandshake env config f fx0).2 = Outcome.exited c) : c = 0 := by
  rcases hu : f.user with _ | u
  · simp only [angelHandshake, hu, Outcome.exited.injEq] at h
    exact h.symm
  · rcases hr : env.setUserResult u with _ | _ | cc <;>
      simp only [angelHandshake, hu, hr, setUser, Outcome.exited.injEq] at h <;>
      simp_all

theorem angelHandshake_snd_other (env : Env) (config : BDict) (f : AdminFields)
    (fx0 : List Effect) (u : String) (c : Int)
    (hu : f.user = some u) (hr : env.setUserResult u = SetUserResult.other c) :
    (angelHandshake env config f fx0).2
      = Outcome.fatal "Security_setUser returned unknown result" := by
  simp [angelHandshake, hu, hr, setUser]

theorem drop_user_angelHandshake (env : Env) (config : BDict) (f : AdminFields)
    (fx0 : List Effect) (u : String)
    (hfx0 : ∀ v, Effect.dropPrivileges v ∉ fx0)
    (hd : Effect.dropPrivileges u ∈ (angelHandshake env config f fx0).1) :
    f.user = some u := by
  rcases mem_angelHandshake env config f fx0 _ hd with h | h | h | h | ⟨v, h, hv⟩
  · exact absurd h (hfx0 u)
  · cases h
  · cases h
  · cases h
  · rw [Effect.dropPrivileges.injEq] at h
    rw [h]
    exact hv

theorem angelPostDecode_missing (env : Env) (config : BDict)
    (hB : missingParams (readAdmin config) = true) :
    angelPostDecode env config
      = ([], Outcome.fatal "missing configuration params in preconfig") := by
  simp [angelPostDecode, hB]

theorem angelPostDecode_noCore (env : Env) (config : BDict)
    (hB : missingParams (readAdmin config) = false)
    (hc : (readAdmin config).core = none) :
    angelPostDecode env config
      = angelHandshake env config (readAdmin config)
          [Effect.openCorePipe ((readAdmin config).corePipeName.getD env.randName),
           Effect.createFraming 65535] := by
  simp [angelPostDecode, hB, hc]

theorem angelPostDecode_fopenFail (env : Env) (config : BDict) (path : String)
    (hB : missingParams (readAdmin config) = false)
    (hc : (readAdmin config).core = some path)
    (hf : env.fopenOk path = false) :
    angelPostDecode env config
      = ([Effect.openCorePipe ((readAdmin config).corePipeName.getD env.randName),
          Effect.createFraming 65535],
         Outcome.fatal "Cant open core executable for reading") := by
  simp [angelPostDecode, hB, hc, hf]

theorem angelPostDecode_spawnFail (env : Env) (config : BDict) (path : String)
    (hB : missingParams (readAdmin config) = false)
    (hc : (readAdmin config).core = some path)
    (hf : env.fopenOk path = true)
    (hsp : ¬ env.spawnResult path = 0) :
    angelPostDecode env config
      = ([Effect.openCorePipe ((readAdmin config).corePipeName.getD env.randName),
          Effect.createFraming 65535,
          Effect.spawn path ["core", (readAdmin config).corePipeName.getD env.randName]],
         Outcome.fatal "Failed to spawn core process") := by
  simp [angelPostDecode, hB, hc, hf, hsp]

theorem angelPostDecode_spawnOk (env : Env) (config : BDict) (path : String)
    (hB : missingParams (readAdmin config) = false)
    (hc : (readAdmin config).core = some path)
    (hf : env.fopenOk path = true)
    (hsp : env.spawnResult path = 0) :
    angelPostDecode env config
      = angelHandshake env config (readAdmin config)
          ([Effect.openCorePipe ((readAdmin config).corePipeName.getD env.randName),
            Effect.createFraming 65535]
           ++ [Effect.spawn path ["core", (readAdmin config).corePipeName.getD env.randName]]) := by
  simp [angelPostDecode, hB, hc, hf, hsp]

theorem mem_angelPostDecode (env : Env) (config : BDict) (e : Effect)
    (he : e ∈ (angelPostDecode env config).1) :
    e = Effect.openCorePipe ((readAdmin config).corePipeName.getD env.randName) ∨
      e = Effect.createFraming 65535 ∨
      (∃ path, e = Effect.spawn path
          ["core", (readAdmin config).corePipeName.getD env.randName] ∧
        (readAdmin config).core = some path) ∨
      e = Effect.sendToCore (env.bencWrite config) ∨
      e = Effect.sendToClient env.coreReply ∨ e = Effect.handoff ∨
      (∃ u, e = Effect.dropPrivileges u ∧ (readAdmin config).user = some u) := by
  cases hB : missingParams (readAdmin config) with
  | true =>
    rw [angelPostDecode_missing env config hB] at he
    simp at he
  | false =>
    rcases hc : (readAdmin config).core with _ | path
    · rw [angelPostDecode_noCore env config hB hc] at he
      have h2 := mem_angelHandshake env config (readAdmin config) _ e he
      rcases h2 with h2 | h2 | h2 | h2 | ⟨u, h2, hu⟩
      · simp only [List.mem_cons, List.not_mem_nil, or_false] at h2
        tauto
      · tauto
      · tauto
      · tauto
      · exact Or.inr (Or.inr (Or.inr (Or.inr (Or.inr (Or.inr ⟨u, h2, hu⟩)))))
    · cases hf : env.fopenOk path with
      | false =>
        rw [angelPostDecode_fopenFail env config path hB hc hf] at he
        simp only [List.mem_cons, List.not_mem_nil, or_false] at he
        tauto
      | true =>
        by_cases hsp : env.spawnResult path = 0
        · rw [angelPostDecode_spawnOk env config path hB hc hf hsp] at he
          have h2 := mem_angelHandshake env config (readAdmin config) _ e he
          rcases h2 with h2 | h2 | h2 | h2 | ⟨u, h2, hu⟩
          · simp only [List.append_assoc, List.mem_append, List.mem_cons,
              List.not_mem_nil, or_false, or_assoc] at h2
            rcases h2 with h2 | h2 | h2
            · tauto
            · tauto
            · exact Or.inr (Or.inr (Or.inl ⟨path, h2, rfl⟩))
          · tauto
          · tauto
          · tauto
          · exact Or.inr (Or.inr (Or.inr (Or.inr (Or.inr (Or.inr ⟨u, h2, hu⟩)))))
        · rw [angelPostDecode_spawnFail env config path hB hc hf hsp] at he
          simp only [List.mem_cons, List.not_mem_nil, or_false] at he
          rcases he with he | he | he
          · tauto
          · tauto
          · exact Or.inr (Or.inr (Or.inl ⟨path, he, rfl⟩))

theorem exit_angelPostDecode (env : Env) (config : BDict) (c : Nat)
    (h : (angelPostDecode env config).2 = Outcome.exited c) : c = 0 := by
  cases hB : missingParams (readAdmin config) with
  | true =>
    rw [angelPostDecode_missing env config hB] at h
    cases h
  | false =>
    rcases hc : (readAdmin config).core with _ | path
    · rw [angelPostDecode_noCore env config hB hc] at h
      exact exit_angelHandshake env config (readAdmin config) _ c h
    · cases hf : env.fopenOk path with
      | false =>
        rw [angelPostDecode_fopenFail env config path hB hc hf] at h
        cases h
      | true =>
        by_cases hsp : env.spawnResult path = 0
        · rw [angelPostDecode_spawnOk env config path hB hc hf hsp] at h
          exact exit_angelHandshake env config (readAdmin config) _ c h
        · rw [angelPostDecode_spawnFail env config path hB hc hf hsp] at h
          cases h

theorem drop_angelPostDecode (env : Env) (config : BDict) (u : String) (c : Int)
    (hd : Effect.dropPrivileges u ∈ (angelPostDecode env config).1)
    (hr : env.setUserResult u = SetUserResult.other c) :
    (angelPostDecode env config).2
      = Outcome.fatal "Security_setUser returned unknown result" := by
  cases hB : missingParams (readAdmin config) with
  | true =>
    rw [angelPostDecode_missing env config hB] at hd
    simp at hd
  | false =>
    rcases hc : (readAdmin config).core with _ | path
    · rw [angelPostDecode_noCore env config hB hc] at hd ⊢
      have hu := drop_user_angelHandshake env config (readAdmin config) _ u
        (by intro v hv; simp at hv) hd
      exact angelHandshake_snd_other env config (readAdmin config) _ u c hu hr
    · cases hf : env.fopenOk path with
      | false =>
        rw [angelPostDecode_fopenFail env config path hB hc hf] at hd
        simp at hd
      | true =>
        by_cases hsp : env.spawnResult path = 0
        · rw [angelPostDecode_spawnOk env config path hB hc hf hsp] at hd ⊢
          have hu := drop_user_angelHandshake env config (readAdmin config) _ u
            (by intro v hv; simp at hv) hd
          exact angelHandshake_snd_other env config (readAdmin config) _ u c hu hr
        · rw [angelPostDecode_spawnFail env config path hB hc hf hsp] at hd
          simp at hd

theorem AngelInit_main_error (env : Env) (e : String)
    (hr : env.bencRead env.clientMsg = Except.error e) :
    AngelInit_main env
      = ([Effect.openClientPipe (getClientPipe env.argv)], Outcome.fatal e) := by
  simp [AngelInit_main, hr]

theorem AngelInit_main_ok (env : Env) (config : BDict)
    (hr : env.bencRead env.clientMsg = Except.ok config) :
    AngelInit_main env
      = (Effect.openClientPipe (getClientPipe env.argv) :: (angelPostDecode env config).1,
         (angelPostDecode env config).2) := by
  simp [AngelInit_main, hr]

theorem mem_AngelInit_main (env : Env) (e : Effect)
    (he : e ∈ (AngelInit_main env).1) :
    e = Effect.openClientPipe (getClientPipe env.argv) ∨
      ∃ config, env.bencRead env.clientMsg = Except.ok config ∧
        e ∈ (angelPostDecode env config).1 := by
  rcases hr : env.bencRead env.clientMsg with msg | config
  · rw [AngelInit_main_error env msg hr] at he
    simp only [List.mem_cons, List.not_mem_nil, or_false] at he
    exact Or.inl he
  · rw [AngelInit_main_ok env config hr] at he
    simp only [List.mem_cons] at he
    rcases he with he | he
    · exact Or.inl he
    · exact Or.inr ⟨config, rfl, he⟩

theorem filter_sendToCore_angelHandshake (env : Env) (config : BDict)
    (f : AdminFields) (fx0 : List Effect) :
    ((angelHandshake env config f fx0).1).filter isSendToCore
      = fx0.filter isSendToCore ++ [Effect.sendToCore (env.bencWrite config)] := by
  obtain ⟨rest, hEq, hrest⟩ := angelHandshake_fst env config f fx0
  have h1 : rest.filter isSendToCore = [] := by
    rw [List.filter_eq_nil_iff]
    intro a ha
    rcases hrest a ha with h | ⟨u, h, _⟩ <;> subst h <;> simp [isSendToCore]
  rw [hEq, List.filter_append, List.filter_append, h1]
  simp [isSendToCore, List.filter_cons]

theorem filter_openCorePipe_angelHandshake (env : Env) (config : BDict)
    (f : AdminFields) (fx0 : List Effect) :
    ((angelHandshake env config f fx0).1).filter isOpenCorePipe
      = fx0.filter isOpenCorePipe := by
  obtain ⟨rest, hEq, hrest⟩ := angelHandshake_fst env config f fx0
  have h1 : rest.filter isOpenCorePipe = [] := by
    rw [List.filter_eq_nil_iff]
    intro a ha
    rcases hrest a ha with h | ⟨u, h, _⟩ <;> subst h <;> simp [isOpenCorePipe]
  rw [hEq, List.filter_append, List.filter_append, h1]
  simp [isOpenCorePipe, List.filter_cons]

theorem filter_sendToCore_angelPostDecode (env : Env) (config : BDict) :
    ((angelPostDecode env config).1).filter isSendToCore = [] ∨
      ((angelPostDecode env config).1).filter isSendToCore
        = [Effect.sendToCore (env.bencWrite config)] := by
  cases hB : missingParams (readAdmin config) with
  | true =>
    left
    rw [angelPostDecode_missing env config hB]
    rfl
  | false =>
    rcases hc : (readAdmin config).core with _ | path
    · right
      rw [angelPostDecode_noCore env config hB hc, filter_sendToCore_angelHandshake]
      simp [isSendToCore, List.filter_cons]
    · cases hf : env.fopenOk path with
      | false =>
        left
        rw [angelPostDecode_fopenFail env config path hB hc hf]
        simp [isSendToCore, List.filter_cons]
      | true =>
        by_cases hsp : env.spawnResult path = 0
        · right
          rw [angelPostDecode_spawnOk env config path hB hc hf hsp,
            filter_sendToCore_angelHandshake]
          simp [isSendToCore, List.filter_cons]
        · left
          rw [angelPostDecode_spawnFail env config path hB hc hf hsp]
          simp [isSendToCore, List.filter_cons]

theorem filter_openCorePipe_angelPostDecode (env : Env) (config : BDict) :
    ((angelPostDecode env config).1).filter isOpenCorePipe = [] ∨
      ((angelPostDecode env config).1).filter isOpenCorePipe
        = [Effect.openCorePipe ((readAdmin config).corePipeName.getD env.randName)] := by
  cases hB : missingParams (readAdmin config) with
  | true =>
    left
    rw [angelPostDecode_missing env config hB]
    rfl
  | false =>
    rcases hc : (readAdmin config).core with _ | path
    · right
      rw [angelPostDecode_noCore env config hB hc, filter_openCorePipe_angelHandshake]
      simp [isOpenCorePipe, List.filter_cons]
    · cases hf : env.fopenOk path with
      | false =>
        right
        rw [angelPostDecode_fopenFail env config path hB hc hf]
        simp [isOpenCorePipe, List.filter_cons]
      | true =>
        by_cases hsp : env.spawnResult path = 0
        · right
          rw [angelPostDecode_spawnOk env config path hB hc hf hsp,
            filter_openCorePipe_angelHandshake]
          simp [isOpenCorePipe, List.filter_cons]
        · right
          rw [angelPostDecode_spawnFail env config path hB hc hf hsp]
          simp [isOpenCorePipe, List.filter_cons]

theorem filter_sendToCore_AngelInit_main (env : Env) :
    ((AngelInit_main env).1).filter isSendToCore = [] ∨
      ∃ config, env.bencRead env.clientMsg = Except.ok config ∧
        ((AngelInit_main env).1).filter isSendToCore
          = [Effect.sendToCore (env.bencWrite config)] := by
  rcases hr : env.bencRead env.clientMsg with m | config
  · left
    rw [AngelInit_main_error env m hr]
    simp [isSendToCore, List.filter_cons]
  · rw [AngelInit_main_ok env config hr]
    rcases filter_sendToCore_angelPostDecode env config with h | h
    · left
      simp [isSendToCore, List.filter_cons, h]
    · right
      exact ⟨config, rfl, by simp [isSendToCore, List.filter_cons, h]⟩

theorem filter_openCorePipe_AngelInit_main (env : Env) :
    ((AngelInit_main env).1).filter isOpenCorePipe = [] ∨
      ∃ config, env.bencRead env.clientMsg = Except.ok config ∧
        ((AngelInit_main env).1).filter isOpenCorePipe
          = [Effect.openCorePipe ((readAdmin config).corePipeName.getD env.randName)] := by
  rcases hr : env.bencRead env.clientMsg with m | config
  · left
    rw [AngelInit_main_error env m hr]
    simp [isOpenCorePipe, List.filter_cons]
  · rw [AngelInit_main_ok env config hr]
    rcases filter_openCorePipe_angelPostDecode env config with h | h
    · left
      simp [isOpenCorePipe, List.filter_cons, h]
    · right
      exact ⟨config, rfl, by simp [isOpenCorePipe, List.filter_cons, h]⟩

/-! ## The claims -/

/-- C1: the pre-existing-descriptor mode the file's own doc comment
(AngelInit.c lines 117-132) describes is not implemented.  On the
Scenario B config, whose `admin.core` is the dictionary
`{fromCore: 12, toCore: 14}` with bind and pass present,
`Dict_getString` yields null for `core` (it is not a string), the
fields `fromCore` and `toCore` are read nowhere in the program, and the
run aborts at validation with "missing configuration params" — it never
connects a framing layer to descriptors 12 and 14 and never spawns. -/
theorem C1_dict_core_not_supported :
    (readAdmin cfgDictCore).core = none ∧
    AngelInit_main (envWith cfgDictCore)
      = ([Effect.openClientPipe (ClientPipeSpec.forFiles 0 1)],
         Outcome.fatal "missing configuration params in preconfig") :=
  ⟨rfl, by rfl⟩

/-- C2 counterexample: a config with bind, pass and a `corePipeName`
but neither core form (no core binary path, no descriptor pair) is not
rejected: the run opens the core-facing pipe, sends the re-encoded
config toward the core and exits 0, refuting the claim that every
config containing neither core form aborts before any of that. -/
theorem C2_corePipeName_only_counterexample :
    (readAdmin cfgPipeOnly).core = none ∧
    (readAdmin cfgPipeOnly).corePipeName = some "pn" ∧
    AngelInit_main (envWith cfgPipeOnly)
      = ([Effect.openClientPipe (ClientPipeSpec.forFiles 0 1),
          Effect.openCorePipe "pn", Effect.createFraming 65535,
          Effect.sendToCore [1, 2, 3], Effect.sendToClient [7, 8, 9],
          Effect.handoff],
         Outcome.exited 0) :=
  ⟨rfl, rfl, by rfl⟩

/-- C2 (amended): for every client config missing the bind field,
missing the pass field, or containing neither a string-valued core
field nor a corePipeName, the orchestrator aborts with the fatal
"missing configuration params" diagnostic and its only prior effect is
opening the client pipe — so it aborts before opening the core-facing
pipe, before spawning any core process, and before any data is sent
toward a core. -/
theorem C2_validation_aborts (env : Env) (config : BDict)
    (hread : env.bencRead env.clientMsg = Except.ok config)
    (hmiss : (readAdmin config).bind = none ∨ (readAdmin config).pass = none ∨
      ((readAdmin config).core = none ∧ (readAdmin config).corePipeName = none)) :
    AngelInit_main env
      = ([Effect.openClientPipe (getClientPipe env.argv)],
         Outcome.fatal "missing configuration params in preconfig") := by
  have hB : missingParams (readAdmin config) = true := by
    rcases hmiss with h | h | ⟨h1, h2⟩
    · simp [missingParams, h]
    · simp [missingParams, h]
    · simp [missingParams, h1, h2]
  rw [AngelInit_main_ok env config hread, angelPostDecode_missing env config hB]

/-- C2 witness: the amended theorem applied to a concrete config
missing the pass field. -/
theorem C2_validation_aborts_witness :
    AngelInit_main (envWith cfgNoPass)
      = ([Effect.openClientPipe (getClientPipe (envWith cfgNoPass).argv)],
         Outcome.fatal "missing configuration params in preconfig") :=
  C2_validation_aborts (envWith cfgNoPass) cfgNoPass rfl (Or.inr (Or.inl rfl))

/-- C3: every message the run sends to the client is byte-for-byte the
message received from the core's framed interface (`env.coreReply`),
with no interpretation or transformation. -/
theorem C3_relay_verbatim (env : Env) (fx : List Effect) (o : Outcome)
    (m : List Nat) (h : AngelInit_main env = (fx, o))
    (hm : Effect.sendToClient m ∈ fx) :
    m = env.coreReply := by
  have hfx : fx = (AngelInit_main env).1 := by rw [h]
  subst hfx
  rcases mem_AngelInit_main env _ hm with h1 | ⟨config, hr, h1⟩
  · cases h1
  · rcases mem_angelPostDecode env config _ h1 with
      h2 | h2 | ⟨p, h2, _⟩ | h2 | h2 | h2 | ⟨u, h2, _⟩ <;>
      first
        | (rw [Effect.sendToClient.injEq] at h2; exact h2)
        | cases h2

/-- C3 witness: on the Scenario A run the bytes sent to the client are
the core's reply. -/
theorem C3_relay_verbatim_witness :
    ([7, 8, 9] : List Nat) = (envWith cfgSpawn).coreReply :=
  C3_relay_verbatim (envWith cfgSpawn) spawnTrace (Outcome.exited 0) [7, 8, 9]
    (by rfl) (by decide)

/-- C4: every message the run sends toward the core is the re-encoding,
by the paired writer of the codec that decoded it, of the entire
decoded client config, and the run sends exactly one such message. -/
theorem C4_full_config_one_message (env : Env) (fx : List Effect) (o : Outcome)
    (m : List Nat) (h : AngelInit_main env = (fx, o))
    (hm : Effect.sendToCore m ∈ fx) :
    ∃ config, env.bencRead env.clientMsg = Except.ok config ∧
      m = env.bencWrite config ∧
      fx.filter isSendToCore = [Effect.sendToCore (env.bencWrite config)] := by
  have hfx : fx = (AngelInit_main env).1 := by rw [h]
  subst hfx
  rcases mem_AngelInit_main env _ hm with h1 | ⟨config, hr, h1⟩
  · cases h1
  · have hmEq : m = env.bencWrite config := by
      rcases mem_angelPostDecode env config _ h1 with
        h2 | h2 | ⟨p, h2, _⟩ | h2 | h2 | h2 | ⟨u, h2, _⟩ <;>
        first
          | (rw [Effect.sendToCore.injEq] at h2; exact h2)
          | cases h2
    refine ⟨config, hr, hmEq, ?_⟩
    rcases filter_sendToCore_AngelInit_main env with hf | ⟨config2, hr2, hf⟩
    · exfalso
      have hmem : Effect.sendToCore m ∈ ((AngelInit_main env).1).filter isSendToCore :=
        List.mem_filter.mpr ⟨hm, by simp [isSendToCore]⟩
      rw [hf] at hmem
      cases hmem
    · rw [hr] at hr2
      cases hr2
      exact hf

/-- C4 witness: the theorem applied to the concrete Scenario A run. -/
theorem C4_full_config_one_message_witness :
    ∃ config, (envWith cfgSpawn).bencRead (envWith cfgSpawn).clientMsg
        = Except.ok config ∧
      ([1, 2, 3] : List Nat) = (envWith cfgSpawn).bencWrite config ∧
      spawnTrace.filter isSendToCore
        = [Effect.sendToCore ((envWith cfgSpawn).bencWrite config)] :=
  C4_full_config_one_message (envWith cfgSpawn) spawnTrace (Outcome.exited 0)
    [1, 2, 3] (by rfl) (by decide)

/-- C5: every core pipe opened by a run carries the single chosen name
— the client-supplied corePipeName when present, otherwise the fresh
random name — the run opens exactly one core pipe, and every spawned
core binary receives that same name as its argument; a supplied name is
never regenerated or altered. -/
theorem C5_core_pipe_name_consistent (env : Env) (fx : List Effect) (o : Outcome)
    (n : String) (h : AngelInit_main env = (fx, o))
    (hn : Effect.openCorePipe n ∈ fx) :
    ∃ config, env.bencRead env.clientMsg = Except.ok config ∧
      n = (readAdmin config).corePipeName.getD env.randName ∧
      (∀ s, (readAdmin config).corePipeName = some s → n = s) ∧
      (∀ p args, Effect.spawn p args ∈ fx → args = ["core", n]) ∧
      fx.filter isOpenCorePipe = [Effect.openCorePipe n] := by
  have hfx : fx = (AngelInit_main env).1 := by rw [h]
  subst hfx
  rcases mem_AngelInit_main env _ hn with h1 | ⟨config, hr, h1⟩
  · cases h1
  · have hnEq : n = (readAdmin config).corePipeName.getD env.randName := by
      rcases mem_angelPostDecode env config _ h1 with
        h2 | h2 | ⟨p, h2, _⟩ | h2 | h2 | h2 | ⟨u, h2, _⟩ <;>
        first
          | (rw [Effect.openCorePipe.injEq] at h2; exact h2)
          | cases h2
    refine ⟨config, hr, hnEq, ?_, ?_, ?_⟩
    · intro s hs
      rw [hnEq, hs]
      rfl
    · intro p args hsp
      rcases mem_AngelInit_main env _ hsp with h2 | ⟨config2, hr2, h2⟩
      · cases h2
      · rw [hr] at hr2
        cases hr2
        rcases mem_angelPostDecode env config _ h2 with
          h3 | h3 | ⟨p2, h3, _⟩ | h3 | h3 | h3 | ⟨u, h3, _⟩ <;>
          first
            | (rw [Effect.spawn.injEq] at h3
               rw [h3.2, hnEq])
            | cases h3
    · rcases filter_openCorePipe_AngelInit_main env with hf | ⟨config2, hr2, hf⟩
      · exfalso
        have hmem : Effect.openCorePipe n ∈ ((AngelInit_main env).1).filter isOpenCorePipe :=
          List.mem_filter.mpr ⟨hn, by simp [isOpenCorePipe]⟩
        rw [hf] at hmem
        cases hmem
      · rw [hr] at hr2
        cases hr2
        rw [hf, hnEq]

/-- C5 witness: the theorem applied to the concrete Scenario A run,
where no corePipeName is supplied and the random name is used. -/
theorem C5_core_pipe_name_consistent_witness :
    ∃ config, (envWith cfgSpawn).bencRead (envWith cfgSpawn).clientMsg
        = Except.ok config ∧
      "randomname" = (readAdmin config).corePipeName.getD (envWith cfgSpawn).randName ∧
      (∀ s, (readAdmin config).corePipeName = some s → "randomname" = s) ∧
      (∀ p args, Effect.spawn p args ∈ spawnTrace → args = ["core", "randomname"]) ∧
      spawnTrace.filter isOpenCorePipe = [Effect.openCorePipe "randomname"] :=
  C5_core_pipe_name_consistent (envWith cfgSpawn) spawnTrace (Outcome.exited 0)
    "randomname" (by rfl) (by decide)

/-- C6: the core pipe's close callback `coreDied` terminates the
process with status 1 immediately — it sends nothing to the client and
prints nothing, whatever the handshake state — and the only code
`AngelInit_main` itself returns is 0, on successful handoff. -/
theorem C6_core_death_exit_codes :
    (∀ (σ : Type) (s : σ) (status : Int),
        (coreDied σ s status).2.exitCode = some 1 ∧
        (coreDied σ s status).2.clientSends = [] ∧
        (coreDied σ s status).2.printed = []) ∧
    (∀ env fx c, AngelInit_main env = (fx, Outcome.exited c) → c = 0) := by
  constructor
  · intro σ s status
    exact ⟨rfl, rfl, rfl⟩
  · intro env fx c h
    have h2 : (AngelInit_main env).2 = Outcome.exited c := by rw [h]
    rcases hr : env.bencRead env.clientMsg with m | config
    · rw [AngelInit_main_error env m hr] at h2
      cases h2
    · rw [AngelInit_main_ok env config hr] at h2
      exact exit_angelPostDecode env config c h2

/-- C6 witness: the callback at a concrete state and status, and the
Scenario A run returning 0. -/
theorem C6_core_death_exit_codes_witness :
    ((coreDied Nat 0 7).2.exitCode = some 1 ∧
     (coreDied Nat 0 7).2.clientSends = [] ∧
     (coreDied Nat 0 7).2.printed = []) ∧ (0 : Nat) = 0 :=
  ⟨C6_core_death_exit_codes.1 Nat 0 7,
   C6_core_death_exit_codes.2 (envWith cfgSpawn) spawnTrace 0 (by rfl)⟩

/-- C7: `setUser` lets the "success" (0) and "permission"
(`Security_setUser_PERMISSION`) results continue and throws on every
other result; a run drops privileges only when the decoded config names
a target user; and when the privilege drop runs and `Security_setUser`
returns any other value, the run's outcome is the fatal diagnostic. -/
theorem C7_privilege_drop_policy :
    (setUser SetUserResult.success = Except.ok () ∧
     setUser SetUserResult.permission = Except.ok () ∧
     ∀ c, setUser (SetUserResult.other c)
        = Except.error "Security_setUser returned unknown result") ∧
    (∀ env fx o u, AngelInit_main env = (fx, o) → Effect.dropPrivileges u ∈ fx →
      ∃ config, env.bencRead env.clientMsg = Except.ok config ∧
        (readAdmin config).user = some u) ∧
    (∀ env fx o u c, AngelInit_main env = (fx, o) → Effect.dropPrivileges u ∈ fx →
      env.setUserResult u = SetUserResult.other c →
      o = Outcome.fatal "Security_setUser returned unknown result") := by
  refine ⟨⟨rfl, rfl, fun c => rfl⟩, ?_, ?_⟩
  · intro env fx o u h hm
    have hfx : fx = (AngelInit_main env).1 := by rw [h]
    subst hfx
    rcases mem_AngelInit_main env _ hm with h1 | ⟨config, hr, h1⟩
    · cases h1
    · refine ⟨config, hr, ?_⟩
      rcases mem_angelPostDecode env config _ h1 with
        h2 | h2 | ⟨p, h2, _⟩ | h2 | h2 | h2 | ⟨v, h2, hv⟩ <;>
        first
          | (rw [Effect.dropPrivileges.injEq] at h2; rw [h2]; exact hv)
          | cases h2
  · intro env fx o u c h hm hres
    have hfx : fx = (AngelInit_main env).1 := by rw [h]
    have ho : o = (AngelInit_main env).2 := by rw [h]
    subst hfx
    subst ho
    rcases mem_AngelInit_main env _ hm with h1 | ⟨config, hr, h1⟩
    · cases h1
    · rw [AngelInit_main_ok env config hr]
      exact drop_angelPostDecode env config u c h1 hres

/-- C7 witness: the only-when-named part applied to the concrete run
whose config names the user "nobody". -/
theorem C7_privilege_drop_policy_witness :
    ∃ config, (envWith cfgUser).bencRead (envWith cfgUser).clientMsg
        = Except.ok config ∧ (readAdmin config).user = some "nobody" :=
  C7_privilege_drop_policy.2.1 (envWith cfgUser) userTrace (Outcome.exited 0)
    "nobody" (by rfl) (by decide)

/-- C8 counterexample: on the argument vector `cjdns angel 5 x` the
pair (5, x) is not a usable descriptor pair (x does not parse to a
descriptor), yet the code does not fall back to treating "5" as a
named-pipe identifier: it opens descriptors 5 and standard output.  The
claimed resolution order (pair supplied, else named pipe, else
standard streams) therefore disagrees with the code on this vector. -/
theorem C8_resolution_counterexample :
    getClientPipe ["cjdns", "angel", "5", "x"] = ClientPipeSpec.forFiles 5 1 ∧
    claimClientResolution ["cjdns", "angel", "5", "x"] = ClientPipeSpec.named "5" ∧
    getClientPipe ["cjdns", "angel", "5", "x"]
      ≠ claimClientResolution ["cjdns", "angel", "5", "x"] := by
  refine ⟨by decide, by decide, by decide⟩

/-- C8 (amended): the client channel is resolved in this order: if at
least two further arguments are present and the input-descriptor
argument parses to a nonzero integer, the endpoint is opened on that
descriptor and on the output-descriptor argument's value (standard
output when that is absent or parses to zero); otherwise, if a next
argument is present, it is used as a named-pipe identifier; otherwise
standard input and standard output are used. -/
theorem C8_resolution_amended (argv : List String) :
    getClientPipe argv = amendedClientResolution argv := by
  simp only [getClientPipe, amendedClientResolution, STDIN_FILENO, STDOUT_FILENO,
    gt_iff_lt]
  generalize atoi (argv.getD 2 "") = a2
  generalize atoi (argv.getD 3 "") = a3
  generalize argv.getD 2 "" = s2
  generalize argv.length = n
  by_cases h4 : n < 4 <;>
    by_cases ha2 : a2 = 0 <;>
    by_cases h2 : 2 < n <;>
    by_cases ha3 : a3 = 0 <;>
    first
      | (simp [h4, ha2, h2, ha3]; done)
      | (exfalso; omega)

/-- C9: the client pipe's close callback `clientDisconnected`, which is
installed before the handshake begins and so can fire at any point of
it, only prints one informational line: it does not terminate the
process, sends nothing, and returns the handshake state unchanged. -/
theorem C9_client_disconnect_informational (σ : Type) (s : σ) (status : Int) :
    clientDisconnected σ s status
      = (s, { exitCode := none,
              printed := ["Cjdns has started up in the background"],
              clientSends := [] }) := rfl

/-- C10: the core-facing framing layer is constructed with maximum
message size exactly 65535 in every run that constructs one; a declared
frame length above 65535 fails with a protocol error, and a frame of
length at most 65535 is accepted once its bytes are buffered. -/
theorem C10_framing_bound :
    (∀ env fx o n, AngelInit_main env = (fx, o) → Effect.createFraming n ∈ fx →
        n = 65535) ∧
    (∀ declaredLen buffered, 65535 < declaredLen →
        framingReceive 65535 declaredLen buffered = FrameResult.protocolError) ∧
    (∀ declaredLen buffered, declaredLen ≤ 65535 →
        declaredLen ≤ List.length buffered →
        framingReceive 65535 declaredLen buffered
          = FrameResult.msg (List.take declaredLen buffered)) := by
  refine ⟨?_, ?_, ?_⟩
  · intro env fx o n h hm
    have hfx : fx = (AngelInit_main env).1 := by rw [h]
    subst hfx
    rcases mem_AngelInit_main env _ hm with h1 | ⟨config, hr, h1⟩
    · cases h1
    · rcases mem_angelPostDecode env config _ h1 with
        h2 | h2 | ⟨p, h2, _⟩ | h2 | h2 | h2 | ⟨u, h2, _⟩ <;>
        first
          | (rw [Effect.createFraming.injEq] at h2; exact h2)
          | cases h2
  · intro len buf hlen
    simp [framingReceive, hlen]
  · intro len buf hlen hbuf
    simp only [framingReceive]
    rw [if_neg (by omega), if_pos hbuf]

/-- C10 witness: an oversize declared length is rejected, an in-bound
frame is delivered, and the createFraming effect of the Scenario A run
carries 65535. -/
theorem C10_framing_bound_witness :
    framingReceive 65535 65536 [] = FrameResult.protocolError ∧
    framingReceive 65535 2 [5, 6, 7] = FrameResult.msg [5, 6] ∧
    (65535 : Nat) = 65535 :=
  ⟨C10_framing_bound.2.1 65536 [] (by decide),
   C10_framing_bound.2.2 2 [5, 6, 7] (by decide) (by decide),
   C10_framing_bound.1 (envWith cfgSpawn) spawnTrace (Outcome.exited 0) 65535
     (by rfl) (by decide)⟩
